import Mathlib

/-!
Verification development for the GpxSonar coordinate engine (`Coord.cpp`,
class `CLatLon`).  The C++ routines are shallowly embedded over `ℝ`:
`double` arithmetic is idealised as real arithmetic, library calls
(`sin`, `cos`, `acos`, `asin`, `atan`, `atan2`, `fmod`, `sqrt`, `pow`,
`floor`, `toupper`) are embedded by their mathematical definitions, and
the two places where the C library produces a NaN through a domain error
(`acos` outside `[-1,1]`, normalising a zero vector) are embedded as
`Option` with `none` for the NaN outcome.  Division of a nonzero value
by zero cannot occur on any path exercised by the theorems below except
inside `isBetween`, where the IEEE outcome (`Inf`/`NaN`, making both
comparisons false) is embedded explicitly.
-/

open scoped Classical

noncomputable section

/-- Latitude/longitude pair in degrees, mirroring `CLatLon::m_Latitude` and
`CLatLon::m_Longitude`. -/
structure GeoPoint where
  latitude : ℝ
  longitude : ℝ

/-- Three-dimensional Cartesian point, mirroring `CCartesianCoord`. -/
structure CCartesianCoord where
  x : ℝ
  y : ℝ
  z : ℝ

/-- Ellipsoid semi-major axis: `CLatLon::m_Ellipsoid = CEllipsoid(6378137.00, 298.257223563)`. -/
def m_a : ℝ := 6378137.00

/-- Ellipsoid inverse flattening (same constructor call). -/
def m_fInv : ℝ := 298.257223563

/-- Radius of the Earth in meters (`CLatLon::m_Radius`). -/
def m_Radius : ℝ := 6366707.01896486

/-- Degrees to radians conversion factor (`CLatLon::m_Deg2Rad`).  Note that this
is the source's literal constant, not exactly `π / 180`. -/
def m_Deg2Rad : ℝ := 1.74532925199433e-2

/-- The macro `PI` from `Coord.cpp` (`3.14159265358979`), a rational literal
distinct from the real `π`. -/
def PI_CONST : ℝ := 3.14159265358979

/-- The convergence threshold macro `EPSILON` (`5.e-14`). -/
def EPSILON : ℝ := 5e-14

/-- UTM zone letters `CLatLon::m_strZoneLetters = "CDEFGHJKLMNPQRSTUVWX"`,
embedded as a list of characters. -/
def m_strZoneLetters : List Char :=
  ['C', 'D', 'E', 'F', 'G', 'H', 'J', 'K', 'L', 'M',
   'N', 'P', 'Q', 'R', 'S', 'T', 'U', 'V', 'W', 'X']

/-- Truncation toward zero, the conversion a C cast `(int)` applies to a
`double` and the rounding `fmod` is defined with. -/
def rtrunc (q : ℝ) : ℤ := if 0 ≤ q then ⌊q⌋ else ⌈q⌉

/-- The C library `fmod(x, y) = x - trunc(x / y) * y`. -/
def fmod (x y : ℝ) : ℝ := x - y * (rtrunc (x / y) : ℝ)

/-- The C library `atan2(y, x)`: the angle of the point `(x, y)` in `(-π, π]`,
with `atan2(0, 0) = 0`. -/
def atan2 (y x : ℝ) : ℝ :=
  if 0 < x then Real.arctan (y / x)
  else if x < 0 ∧ 0 ≤ y then Real.arctan (y / x) + Real.pi
  else if x < 0 ∧ y < 0 then Real.arctan (y / x) - Real.pi
  else if x = 0 ∧ 0 < y then Real.pi / 2
  else if x = 0 ∧ y < 0 then -(Real.pi / 2)
  else 0

/-- The C library `acos`: a domain error (NaN) outside `[-1, 1]`, embedded as
`none`. -/
def acosOpt (x : ℝ) : Option ℝ := if |x| ≤ 1 then some (Real.arccos x) else none

/-- Modelled from the spec: `CartesianPoint` dot product (the implementation in
`Coord.h` is not part of the examined source; §3 of the spec specifies a plain
dot product). -/
def cdot (a b : CCartesianCoord) : ℝ := a.x * b.x + a.y * b.y + a.z * b.z

/-- Modelled from the spec: `CartesianPoint` normalization, "divide by
magnitude; fails/undefined when magnitude is zero" (§3).  The zero-magnitude
division, which in IEEE arithmetic yields NaN components, is embedded as
`none`. -/
def normalizeOpt (a : CCartesianCoord) : Option CCartesianCoord :=
  let m := Real.sqrt (a.x * a.x + a.y * a.y + a.z * a.z)
  if m = 0 then none else some ⟨a.x / m, a.y / m, a.z / m⟩

/-- `CLatLon::SphericalDistance(CLatLon& P)` (one-argument overload):
great-circle distance by the cosine law, with a planar fallback below 0.01 m. -/
def sphericalDistance (p P : GeoPoint) : ℝ :=
  let dDeltaLong := (p.longitude - P.longitude) * m_Deg2Rad
  let dLat1 := p.latitude * m_Deg2Rad
  let dLat2 := P.latitude * m_Deg2Rad
  let dDeltaLat := dLat1 - dLat2
  let dAngle := Real.arccos (Real.sin dLat1 * Real.sin dLat2 +
    Real.cos dLat1 * Real.cos dLat2 * Real.cos dDeltaLong)
  let dDistance := m_Radius * dAngle
  if dDistance < 0.01 then
    m_Radius * Real.sqrt (dDeltaLat * dDeltaLat +
      (dDeltaLong * Real.cos dLat2) * (dDeltaLong * Real.cos dLat2))
  else dDistance

/-- `CLatLon::SphericalProjection(double dAzimuth, double dDistance)`. -/
def sphericalProjection (p : GeoPoint) (dAzimuth dDistance : ℝ) : GeoPoint :=
  let az := dAzimuth * m_Deg2Rad
  let dLat1 := m_Deg2Rad * p.latitude
  let s := dDistance / m_Radius
  let dLat2 := Real.arcsin (Real.sin dLat1 * Real.cos s +
    Real.cos dLat1 * Real.sin s * Real.cos az)
  let dLong2 := atan2 (Real.sin az * Real.sin s * Real.cos dLat1)
    (Real.cos s - Real.sin dLat1 * Real.sin dLat2)
  { latitude := dLat2 / m_Deg2Rad
    longitude := fmod (dLong2 / m_Deg2Rad + 180) 360 - 180 }

/-- `CLatLon::IsBetween(CLatLon& P1, CLatLon& P2)`, called on the point `p`.
The source computes `u = num / den` in IEEE arithmetic and returns
`u >= 0. && u < 1.`; when `den = 0` the quotient is `Inf` or NaN and the
conjunction evaluates to false, which the embedding states explicitly. -/
def isBetween (p P1 P2 : GeoPoint) : Prop :=
  let cosLat := Real.cos (p.latitude * m_Deg2Rad)
  let num := (p.longitude - P1.longitude) * (P2.longitude - P1.longitude) * cosLat * cosLat
    + (p.latitude - P1.latitude) * (P2.latitude - P1.latitude)
  let den := (P2.longitude - P1.longitude) * (P2.longitude - P1.longitude) * cosLat * cosLat
    + (P2.latitude - P1.latitude) * (P2.latitude - P1.latitude)
  den ≠ 0 ∧ 0 ≤ num / den ∧ num / den < 1

/-- `CLatLon::ToSphericalCartesian()`. -/
def toSphericalCartesian (p : GeoPoint) : CCartesianCoord :=
  let dLat := p.latitude * m_Deg2Rad
  let dLong := p.longitude * m_Deg2Rad
  ⟨m_Radius * Real.cos dLong * Real.cos dLat,
   m_Radius * Real.sin dLong * Real.cos dLat,
   m_Radius * Real.sin dLat⟩

/-- `CLatLon::SphericalCross(CLatLon& P)`, called on `P1` with argument `P2`. -/
def sphericalCross (P1 P2 : GeoPoint) : CCartesianCoord :=
  let dLat1 := P1.latitude * m_Deg2Rad
  let dLong1 := P1.longitude * m_Deg2Rad
  let dLat2 := P2.latitude * m_Deg2Rad
  let dLong2 := P2.longitude * m_Deg2Rad
  let dDeltaLat := dLat1 - dLat2
  let dSumLat := dLat1 + dLat2
  let dDeltaLong := (dLong1 - dLong2) / 2
  let dAvgLong := (dLong1 + dLong2) / 2
  ⟨Real.sin dSumLat * Real.cos dAvgLong * Real.sin dDeltaLong
     - Real.sin dDeltaLat * Real.sin dAvgLong * Real.cos dDeltaLong,
   Real.sin dDeltaLat * Real.cos dAvgLong * Real.cos dDeltaLong
     + Real.sin dSumLat * Real.sin dAvgLong * Real.sin dDeltaLong,
   Real.cos dLat1 * Real.cos dLat2 * Real.sin (-2 * dDeltaLong)⟩

/-- `CLatLon::SphericalDistance(CLatLon& P1, CLatLon& P2)` (two-argument
overload): signed cross-track distance from `p` to the great circle through
`P1` and `P2`.  `none` embeds the NaN the source produces when the
cross-product is the zero vector or the `acos` argument leaves `[-1, 1]`. -/
def crossTrackDistance (p P1 P2 : GeoPoint) : Option ℝ :=
  let dSign : ℝ := if isBetween p P1 P2 then 1 else -1
  let P := toSphericalCartesian p
  match normalizeOpt (sphericalCross P1 P2) with
  | none => none
  | some N => (acosOpt (cdot N P)).map fun angle =>
      dSign * |m_Radius * (PI_CONST / 2 - angle)|

/-- `CLatLon::GetZone()`.  `(int) floor(...)` truncates the `double` result of
`floor`, which is already integral, so it is `⌊·⌋`; the C `%` on `int` is
truncated division, `Int.tmod`. -/
def getZone (p : GeoPoint) : ℤ :=
  let iZone := (Int.floor ((p.longitude + 180) / 6)).tmod 60 + 1
  let iZone := if 56 < p.latitude ∧ p.latitude ≤ 64 ∧ 3 < p.longitude ∧ p.longitude ≤ 12
    then 32 else iZone
  if 72 < p.latitude ∧ p.latitude < 84 then
    if 0 ≤ p.longitude ∧ p.longitude < 9 then 31
    else if 9 ≤ p.longitude ∧ p.longitude < 21 then 33
    else if 21 ≤ p.longitude ∧ p.longitude < 33 then 35
    else if 33 ≤ p.longitude ∧ p.longitude < 42 then 37
    else iZone
  else iZone

/-- `CLatLon::GetZoneLetter()`.  `int iZoneLetter = floor(m_Latitude + 80.)/8`
divides the `double` result of `floor` by `8` in `double` arithmetic and then
truncates toward zero on assignment to `int`. -/
def getZoneLetter (p : GeoPoint) : Char :=
  if 72 ≤ p.latitude ∧ p.latitude ≤ 84 then 'X'
  else
    let iZoneLetter := rtrunc ((Int.floor (p.latitude + 80) : ℝ) / 8)
    if 0 ≤ iZoneLetter ∧ iZoneLetter < 20 then
      m_strZoneLetters.getD iZoneLetter.toNat 'Z'
    else 'Z'

/-- The transverse-Mercator mathematics of `CLatLon::ToUTM()` (the routine is
present in `Coord.cpp` only inside a comment block; its string formatting is
dropped and the rounded easting/northing are returned as integers together
with the zone number and zone letter). -/
def utmForward (p : GeoPoint) : ℤ × Char × ℤ × ℤ :=
  let iZone := getZone p
  let cZoneLetter := getZoneLetter p
  let k0 : ℝ := 0.9996
  let dEastingOffset : ℝ := 5e5
  let dNorthingOffsetSouth : ℝ := 1e7
  let a := m_a
  let flat := 1 / m_fInv
  let ecc2 := 2 * flat - flat * flat
  let ecc12 := ecc2 / (1 - ecc2)
  let dLatitude := p.latitude * m_Deg2Rad
  let dLongitude := (fmod (p.longitude + 180) 360 - 180) * m_Deg2Rad
  let dCentralLongitude := (((iZone : ℝ) - 1) * 6 - 180 + 3) * m_Deg2Rad
  let N := a / Real.sqrt (1 - ecc2 * Real.sin dLatitude * Real.sin dLatitude)
  let T := Real.tan dLatitude * Real.tan dLatitude
  let C := ecc12 * Real.cos dLatitude * Real.cos dLatitude
  let A := Real.cos dLatitude * (dLongitude - dCentralLongitude)
  let M := a * ((1 - ecc2 / 4 - 3 * ecc2 * ecc2 / 64 - 5 * ecc2 * ecc2 * ecc2 / 256) * dLatitude
    - (3 * ecc2 / 8 + 3 * ecc2 * ecc2 / 32 + 45 * ecc2 * ecc2 * ecc2 / 1024)
        * Real.sin (2 * dLatitude)
    + (15 * ecc2 * ecc2 / 256 + 45 * ecc2 * ecc2 * ecc2 / 1024) * Real.sin (4 * dLatitude)
    - (35 * ecc2 * ecc2 * ecc2 / 3072) * Real.sin (6 * dLatitude))
  let dUTMEasting := k0 * N * (A + (1 - T + C) * A * A * A / 6
    + (5 - 18 * T + T * T + 72 * C - 58 * ecc12) * A * A * A * A * A / 120) + dEastingOffset
  let dUTMNorthing := k0 * (M + N * Real.tan dLatitude * (A * A / 2
    + (5 - T + 9 * C + 4 * C * C) * A * A * A * A / 24
    + (61 - 58 * T + T * T + 600 * C - 330 * ecc12) * A * A * A * A * A * A / 720))
  let dUTMNorthing := if p.latitude < 0 then dUTMNorthing + dNorthingOffsetSouth
    else dUTMNorthing
  (iZone, cZoneLetter, ⌊dUTMEasting + 0.5⌋, ⌊dUTMNorthing + 0.5⌋)

/-- `CLatLon::ConvertUTM(int iZone, char cZoneLetter, double dEasting, double
dNorthing)`.  The method mutates `m_Latitude`/`m_Longitude` of its receiver and
returns a `bool`; the embedding passes the receiver's prior state in and
returns the new state with the flag. -/
def ConvertUTM (p : GeoPoint) (iZone : ℤ) (cZoneLetter : Char)
    (dEasting dNorthing : ℝ) : GeoPoint × Bool :=
  let k0 : ℝ := 0.9996
  let dEastingOffset : ℝ := 5e5
  let dNorthingOffsetSouth : ℝ := 1e6
  let a := m_a
  let flat := 1 / m_fInv
  let ecc2 := 2 * flat - flat * flat
  let ecc12 := ecc2 / (1 - ecc2)
  let e1 := (1 - Real.sqrt (1 - ecc2)) / (1 + Real.sqrt (1 - ecc2))
  let x := dEasting - dEastingOffset
  let y := dNorthing
  let cz := cZoneLetter.toUpper
  if cz ∉ m_strZoneLetters then (p, false)
  else
    let y := if (cz.toNat : ℤ) - ('N'.toNat : ℤ) < 0 then y - dNorthingOffsetSouth else y
    let dCentralLongitude := (((iZone : ℝ) - 1) * 6 - 180 + 3) * m_Deg2Rad
    let M := y / k0
    let mu := M / (a * (1 - ecc2 / 4 - 3 * ecc2 * ecc2 / 64 - 5 * ecc2 * ecc2 * ecc2 / 256))
    let phi1 := mu + (3 * e1 / 2 - 27 * e1 * e1 * e1 / 32) * Real.sin (2 * mu)
      + (21 * e1 * e1 / 16 - 55 * e1 * e1 * e1 * e1 / 32) * Real.sin (4 * mu)
      + (151 * e1 * e1 * e1 / 96) * Real.sin (6 * mu)
    let N1 := a / Real.sqrt (1 - ecc2 * Real.sin phi1 * Real.sin phi1)
    let T1 := Real.tan phi1 * Real.tan phi1
    let C1 := ecc12 * Real.cos phi1 * Real.cos phi1
    let R1 := a * (1 - ecc2) / (1 - ecc2 * Real.sin phi1 * Real.sin phi1) ^ (1.5 : ℝ)
    let D := x / (N1 * k0)
    let dLatitude := phi1 - (N1 * Real.tan phi1 / R1) * (D * D / 2
      - (5 + 3 * T1 + 10 * C1 - 4 * C1 * C1 - 9 * ecc12) * D * D * D * D / 24
      + (61 + 90 * T1 + 298 * C1 + 45 * T1 * T1 - 252 * ecc12 - 3 * C1 * C1)
          * D * D * D * D * D * D / 720)
    let dLongitude := (D - (1 + 2 * T1 + C1) * D * D * D / 6
      + (5 - 2 * C1 + 28 * T1 - 3 * C1 * C1 + 8 * ecc12 + 24 * T1 * T1)
          * D * D * D * D * D / 120) / Real.cos phi1
    ({ latitude := dLatitude / m_Deg2Rad
       longitude := (dCentralLongitude + dLongitude) / m_Deg2Rad }, true)

/-- One iteration of the λ loop of `CLatLon::VincentyDistance`: from the
current `lambda` it computes the body's quantities and the updated `lambda`,
returning `(lambda', ss, cs, cosalpha2, c2sm)` (the values live after the
loop). -/
def vincentyLambdaStep (flat sinu1 cosu1 sinu2 cosu2 omega lambda : ℝ) :
    ℝ × ℝ × ℝ × ℝ × ℝ :=
  let ss1 := cosu2 * Real.sin lambda
  let ss2 := cosu1 * sinu2 - sinu1 * cosu2 * Real.cos lambda
  let ss := Real.sqrt (ss1 * ss1 + ss2 * ss2)
  let cs := sinu1 * sinu2 + cosu1 * cosu2 * Real.cos lambda
  let sinalpha := cosu1 * cosu2 * Real.sin lambda / ss
  let cosalpha := Real.cos (Real.arcsin sinalpha)
  let cosalpha2 := cosalpha * cosalpha
  let c2sm := cs - 2 * sinu1 * sinu2 / cosalpha2
  let c := flat / 16 * cosalpha2 * (4 + flat * (4 - 3 * cosalpha2))
  let lambda' := omega + (1 - c) * flat * sinalpha
    * (Real.arcsin ss + c * ss * (c2sm + c * cs * (-1 + 2 * c2sm * c2sm)))
  (lambda', ss, cs, cosalpha2, c2sm)

/-- The `do … while (dDeltaLambda > EPSILON)` loop of
`CLatLon::VincentyDistance`.  The source has no iteration cap; the fuel
parameter is an artifact of the embedding, with `none` meaning that after
`fuel` iterations the source loop would still be running. -/
def vincentyInverseLoop (flat sinu1 cosu1 sinu2 cosu2 omega : ℝ) :
    ℕ → ℝ → Option (ℝ × ℝ × ℝ × ℝ × ℝ)
  | 0, _ => none
  | fuel + 1, lambda =>
    let r := vincentyLambdaStep flat sinu1 cosu1 sinu2 cosu2 omega lambda
    if |lambda - r.1| > EPSILON then
      vincentyInverseLoop flat sinu1 cosu1 sinu2 cosu2 omega fuel r.1
    else some r

/-- `CLatLon::VincentyDistance(CLatLon& P, double*, double*)`, called on `p`
with argument `P`: returns `(distance, forward azimuth, reverse azimuth)`. -/
def vincentyDistanceFull (p P : GeoPoint) (fuel : ℕ) : Option (ℝ × ℝ × ℝ) :=
  if p.latitude = P.latitude ∧ p.longitude = P.longitude then some (0, 0, 0)
  else
    let dLat1 := m_Deg2Rad * p.latitude
    let dLat2 := m_Deg2Rad * P.latitude
    let dLong1 := m_Deg2Rad * p.longitude
    let dLong2 := m_Deg2Rad * P.longitude
    let a0 := m_a
    let flat := 1 / m_fInv
    let r := 1 - flat
    let b0 := a0 * r
    let tanu1 := r * Real.tan dLat1
    let tanu2 := r * Real.tan dLat2
    let cosu1 := Real.cos (Real.arctan tanu1)
    let sinu1 := Real.sin (Real.arctan tanu1)
    let cosu2 := Real.cos (Real.arctan tanu2)
    let sinu2 := Real.sin (Real.arctan tanu2)
    let omega := dLong2 - dLong1
    match vincentyInverseLoop flat sinu1 cosu1 sinu2 cosu2 omega fuel omega with
    | none => none
    | some (lambda, ss, cs, cosalpha2, c2sm) =>
      let u2 := cosalpha2 * (a0 * a0 - b0 * b0) / (b0 * b0)
      let aa := 1 + u2 / 16384 * (4096 + u2 * (-768 + u2 * (320 - 175 * u2)))
      let bb := u2 / 1024 * (256 + u2 * (-128 + u2 * (74 - 47 * u2)))
      let dsigma := bb * ss * (c2sm + bb / 4 * (cs * (-1 + 2 * c2sm * c2sm)
        - bb / 6 * c2sm * (-3 + 4 * ss * ss) * (-3 + 4 * c2sm * c2sm)))
      let s := b0 * aa * (Real.arcsin ss - dsigma)
      let alpha12 := atan2 (cosu2 * Real.sin lambda)
        (cosu1 * sinu2 - sinu1 * cosu2 * Real.cos lambda) / m_Deg2Rad
      let alpha21 := atan2 (cosu1 * Real.sin lambda)
        (-sinu1 * cosu2 + cosu1 * sinu2 * Real.cos lambda) / m_Deg2Rad
      some (s, fmod (alpha12 + 360) 360, fmod (alpha21 + 180) 360)

/-- The `do … while (fabs(sigma - lastsigma) > EPSILON)` loop of
`CLatLon::VincentyProjection`: `sb0a` is the constant `s / (b0 * a)` and the
state is `sigma`.  As in the inverse solver the source loop is uncapped and
the fuel is an embedding artifact. -/
def vincentyProjLoop (sb0a b sigma1 : ℝ) : ℕ → ℝ → Option ℝ
  | 0, _ => none
  | fuel + 1, sigma =>
    let twosigmam := 2 * sigma1 + sigma
    let ss := Real.sin sigma
    let cs := Real.cos sigma
    let c2sm := Real.cos twosigmam
    let deltasigma := b * ss * (c2sm + b / 4 * (cs * (-1 + 2 * c2sm * c2sm)
      - b / 6 * c2sm * (-3 + 4 * ss * ss) * (-3 + 4 * c2sm * c2sm)))
    let sigma' := sb0a + deltasigma
    if |sigma' - sigma| > EPSILON then vincentyProjLoop sb0a b sigma1 fuel sigma'
    else some sigma'

/-- `CLatLon::VincentyProjection(double dAzimuth, double dDistance)`, called on
`p`. -/
def vincentyProjection (p : GeoPoint) (dAzimuth dDistance : ℝ) (fuel : ℕ) :
    Option GeoPoint :=
  let az := dAzimuth * m_Deg2Rad
  let dLat1 := m_Deg2Rad * p.latitude
  let dLong1 := m_Deg2Rad * p.longitude
  let s := dDistance
  let a0 := m_a
  let flat := 1 / m_fInv
  let r := 1 - flat
  let b0 := a0 * r
  let tanu1 := r * Real.tan dLat1
  let tansigma1 := tanu1 / Real.cos az
  let u1 := Real.arctan tanu1
  let sinu1 := Real.sin u1
  let cosu1 := Real.cos u1
  let sinalpha := cosu1 * Real.sin az
  let cosalpha := Real.sqrt (1 - sinalpha * sinalpha)
  let usqr := cosalpha * cosalpha * (a0 * a0 - b0 * b0) / (b0 * b0)
  let aa := 1 + usqr / 16384 * (4096 + usqr * (-768 + usqr * (320 - 175 * usqr)))
  let b := usqr / 1024 * (256 + usqr * (-128 + usqr * (74 - 47 * usqr)))
  let sigma1 := Real.arctan tansigma1
  (vincentyProjLoop (s / (b0 * aa)) b sigma1 fuel (s / (b0 * aa))).map fun sigma =>
    let twosigmam := 2 * sigma1 + sigma
    let ss := Real.sin sigma
    let cs := Real.cos sigma
    let c2sm := Real.cos twosigmam
    let term1 := sinu1 * cs + cosu1 * ss * Real.cos az
    let term4 := sinu1 * ss - cosu1 * cs * Real.cos az
    let term2 := sinalpha * sinalpha + term4 * term4
    let term3 := r * Real.sqrt term2
    let dLat2 := atan2 term1 term3
    let lterm1 := ss * Real.sin az
    let lterm2 := cosu1 * cs - sinu1 * ss * Real.cos az
    let lambda := atan2 lterm1 lterm2
    let c := flat / 16 * cosalpha * cosalpha * (4 + flat * (4 - 3 * cosalpha * cosalpha))
    let omega := lambda - (1 - c) * flat * sinalpha
      * (sigma + c * ss * (c2sm + c * cs * (-1 + 2 * c2sm * c2sm)))
    let dLong2 := dLong1 + omega
    { latitude := fmod (dLat2 / m_Deg2Rad) 360
      longitude := fmod (dLong2 / m_Deg2Rad) 360 }

/-- The cosine-law great-circle distance `R · acos(sin φ1 sin φ2 + cos φ1 cos
φ2 cos Δλ)`, stated from the spec's words for comparison with
`sphericalDistance`. -/
def cosineLawDistance (p P : GeoPoint) : ℝ :=
  m_Radius * Real.arccos (Real.sin (p.latitude * m_Deg2Rad) * Real.sin (P.latitude * m_Deg2Rad)
    + Real.cos (p.latitude * m_Deg2Rad) * Real.cos (P.latitude * m_Deg2Rad)
      * Real.cos ((p.longitude - P.longitude) * m_Deg2Rad))

/-- The planar linear approximation `R · sqrt(Δφ² + (Δλ · cos φ2)²)` (angles in
radians), stated from the spec's words. -/
def planarApproxDistance (p P : GeoPoint) : ℝ :=
  m_Radius * Real.sqrt ((p.latitude * m_Deg2Rad - P.latitude * m_Deg2Rad) ^ 2
    + ((p.longitude - P.longitude) * m_Deg2Rad * Real.cos (P.latitude * m_Deg2Rad)) ^ 2)

/-- The footpoint-latitude series of `ConvertUTM` specialised to easting
500000 and zone letter `'G'` (southern hemisphere, so the 1e6 offset has been
subtracted): an abbreviation used to state the round-trip evaluation. -/
def footpointLat (ν : ℝ) : ℝ :=
  let ecc2 := 2 * (1 / m_fInv) - (1 / m_fInv) * (1 / m_fInv)
  let e1 := (1 - Real.sqrt (1 - ecc2)) / (1 + Real.sqrt (1 - ecc2))
  let mu := (ν - 1e6) / 0.9996
    / (m_a * (1 - ecc2 / 4 - 3 * ecc2 * ecc2 / 64 - 5 * ecc2 * ecc2 * ecc2 / 256))
  mu + (3 * e1 / 2 - 27 * e1 * e1 * e1 / 32) * Real.sin (2 * mu)
    + (21 * e1 * e1 / 16 - 55 * e1 * e1 * e1 * e1 / 32) * Real.sin (4 * mu)
    + (151 * e1 * e1 * e1 / 96) * Real.sin (6 * mu)

/-! ### Helper lemmas about the C library embeddings -/

theorem rtrunc_of_nonneg {q : ℝ} (h : 0 ≤ q) : rtrunc q = ⌊q⌋ := if_pos h

theorem rtrunc_of_neg {q : ℝ} (h : q < 0) : rtrunc q = ⌈q⌉ := if_neg (not_le.mpr h)

theorem fmod_mem_Ico {x y : ℝ} (hx : 0 ≤ x) (hy : 0 < y) :
    0 ≤ fmod x y ∧ fmod x y < y := by
  have hq : 0 ≤ x / y := div_nonneg hx hy.le
  have h1 : fmod x y = y * Int.fract (x / y) := by
    rw [fmod, rtrunc_of_nonneg hq, Int.fract]
    field_simp
  constructor
  · rw [h1]; exact mul_nonneg hy.le (Int.fract_nonneg _)
  · rw [h1]
    calc y * Int.fract (x / y) < y * 1 := by
          exact mul_lt_mul_of_pos_left (Int.fract_lt_one _) hy
    _ = y := mul_one y

theorem rtrunc_neg (q : ℝ) : rtrunc (-q) = -rtrunc q := by
  rcases lt_trichotomy q 0 with h | h | h
  · rw [rtrunc_of_nonneg (by linarith : (0:ℝ) ≤ -q), rtrunc_of_neg h, Int.floor_neg]
  · subst h; simp [rtrunc]
  · rw [rtrunc_of_neg (by linarith : -q < 0), rtrunc_of_nonneg h.le, Int.ceil_neg]

theorem fmod_neg_eq (x y : ℝ) : fmod (-x) y = -fmod x y := by
  rw [fmod, fmod, neg_div, rtrunc_neg]
  push_cast
  ring

theorem fmod_mem_Ioo (x : ℝ) {y : ℝ} (hy : 0 < y) :
    -y < fmod x y ∧ fmod x y < y := by
  rcases le_or_lt 0 x with hx | hx
  · obtain ⟨h1, h2⟩ := fmod_mem_Ico hx hy
    exact ⟨by linarith, h2⟩
  · have h := fmod_mem_Ico (by linarith : (0:ℝ) ≤ -x) hy
    have : fmod (-x) y = -fmod x y := fmod_neg_eq x y
    constructor <;> nlinarith [h.1, h.2]

theorem fmod_eq_self {x y : ℝ} (hx : 0 ≤ x) (hxy : x < y) : fmod x y = x := by
  have hy : 0 < y := lt_of_le_of_lt hx hxy
  have hq0 : 0 ≤ x / y := div_nonneg hx hy.le
  have hq1 : x / y < 1 := (div_lt_one hy).mpr hxy
  rw [fmod, rtrunc_of_nonneg hq0, Int.floor_eq_zero_iff.mpr ⟨hq0, hq1⟩]
  simp

theorem atan2_mem_Ioc (y x : ℝ) : -Real.pi < atan2 y x ∧ atan2 y x ≤ Real.pi := by
  have hpi : 0 < Real.pi := Real.pi_pos
  have harctan1 : ∀ t : ℝ, Real.arctan t < Real.pi / 2 := Real.arctan_lt_pi_div_two
  have harctan2 : ∀ t : ℝ, -(Real.pi / 2) < Real.arctan t := Real.neg_pi_div_two_lt_arctan
  unfold atan2
  split_ifs with h1 h2 h3 h4 h5
  · exact ⟨by linarith [harctan2 (y / x)], by linarith [harctan1 (y / x)]⟩
  · have hyx : y / x ≤ 0 :=
      div_nonpos_of_nonneg_of_nonpos h2.2 h2.1.le
    have : Real.arctan (y / x) ≤ Real.arctan 0 := Real.arctan_strictMono.monotone hyx
    rw [Real.arctan_zero] at this
    exact ⟨by linarith [harctan2 (y / x)], by linarith⟩
  · have hyx : 0 < y / x := div_pos_of_neg_of_neg h3.2 h3.1
    have : Real.arctan 0 < Real.arctan (y / x) := Real.arctan_strictMono hyx
    rw [Real.arctan_zero] at this
    exact ⟨by linarith, by linarith [harctan1 (y / x)]⟩
  · exact ⟨by linarith, by linarith⟩
  · exact ⟨by linarith, by linarith⟩
  · exact ⟨by linarith, by linarith⟩

end



/-! ### Claim theorems -/

/-- C3: for every point `P`, `VincentyDistance(P, P)` returns distance 0,
forward azimuth 0 and reverse azimuth 0 through the identical-points guard.
The statement holds for every fuel value, in particular for `fuel = 0`, where
the embedded `do … while` loop could not produce a result — so the iteration
is not entered and its divisions never take place. -/
theorem vincenty_inverse_identity (lat lon : ℝ) (fuel : ℕ) :
    vincentyDistanceFull ⟨lat, lon⟩ ⟨lat, lon⟩ fuel = some (0, 0, 0) := by
  simp [vincentyDistanceFull]

/-- C7: the one-argument `SphericalDistance` returns the planar linear
approximation exactly when the cosine-law distance is below 0.01 m, and the
cosine-law distance otherwise. -/
theorem sphericalDistance_small_branch (p P : GeoPoint) :
    sphericalDistance p P =
      if cosineLawDistance p P < 0.01 then planarApproxDistance p P
      else cosineLawDistance p P := by
  simp only [sphericalDistance, cosineLawDistance, planarApproxDistance]
  split_ifs with h
  · congr 1
    ring_nf
  · rfl

/-- C10: for latitudes above 84° or below −88°, `GetZoneLetter` returns the
sentinel `'Z'`, which is not among the twenty valid zone letters. -/
theorem getZoneLetter_sentinel (p : GeoPoint)
    (h : 84 < p.latitude ∨ p.latitude < -88) :
    getZoneLetter p = 'Z' ∧ 'Z' ∉ m_strZoneLetters := by
  refine ⟨?_, by decide⟩
  have hx : ¬ (72 ≤ p.latitude ∧ p.latitude ≤ 84) := by
    rcases h with h | h
    · exact fun hc => absurd hc.2 (not_le.mpr h)
    · exact fun hc => absurd hc.1 (not_le.mpr (by linarith))
  rcases h with h | h
  · have hfl : (164 : ℤ) ≤ ⌊p.latitude + 80⌋ := Int.le_floor.mpr (by push_cast; linarith)
    have hq : (20.5 : ℝ) ≤ (⌊p.latitude + 80⌋ : ℝ) / 8 := by
      rw [le_div_iff₀ (by norm_num : (0:ℝ) < 8)]
      calc (20.5 : ℝ) * 8 = 164 := by norm_num
      _ ≤ (⌊p.latitude + 80⌋ : ℝ) := by exact_mod_cast hfl
    have hq0 : (0 : ℝ) ≤ (⌊p.latitude + 80⌋ : ℝ) / 8 := by linarith
    have hidx : (20 : ℤ) ≤ rtrunc ((⌊p.latitude + 80⌋ : ℝ) / 8) := by
      rw [rtrunc_of_nonneg hq0]
      exact Int.le_floor.mpr (by linarith)
    simp only [getZoneLetter, if_neg hx]
    rw [if_neg]
    intro hc
    exact absurd hc.2 (not_lt.mpr hidx)
  · have hfl : ⌊p.latitude + 80⌋ ≤ -9 := by
      have : (⌊p.latitude + 80⌋ : ℝ) ≤ p.latitude + 80 := Int.floor_le _
      have h9 : (⌊p.latitude + 80⌋ : ℝ) < -8 := by linarith
      have : ⌊p.latitude + 80⌋ < -8 := by exact_mod_cast h9
      linarith
    have hq : (⌊p.latitude + 80⌋ : ℝ) / 8 ≤ -9/8 := by
      rw [div_le_div_iff₀ (by norm_num) (by norm_num : (0:ℝ) < 8)]
      have : (⌊p.latitude + 80⌋ : ℝ) ≤ -9 := by exact_mod_cast hfl
      linarith
    have hqneg : (⌊p.latitude + 80⌋ : ℝ) / 8 < 0 := by linarith
    have hidx : rtrunc ((⌊p.latitude + 80⌋ : ℝ) / 8) ≤ -1 := by
      rw [rtrunc_of_neg hqneg]
      exact Int.ceil_le.mpr (by linarith)
    simp only [getZoneLetter, if_neg hx]
    rw [if_neg]
    intro hc
    exact absurd hc.1 (not_le.mpr (by linarith))

/-- Witness for C10 at the concrete latitude 85°. -/
theorem getZoneLetter_sentinel_witness :
    getZoneLetter ⟨85, 10⟩ = 'Z' ∧ 'Z' ∉ m_strZoneLetters :=
  getZoneLetter_sentinel ⟨85, 10⟩ (Or.inl (by norm_num))

/-- C6 (amended): `ConvertUTM` succeeds exactly when the uppercase image of the
zone letter is among the twenty letters of the table; every other letter is
rejected with `false`. -/
theorem convertUTM_letter_check (p : GeoPoint) (iZone : ℤ) (c : Char)
    (e n : ℝ) :
    (ConvertUTM p iZone c e n).2 = true ↔ c.toUpper ∈ m_strZoneLetters := by
  by_cases h : c.toUpper ∈ m_strZoneLetters
  · simp [ConvertUTM, h]
  · simp [ConvertUTM, h]

/-- C6 counterexample: the lowercase letter `'g'` is not among the twenty
characters of the table, yet `ConvertUTM` accepts it (converting it to
uppercase first) instead of returning an error, and converts
`31 g 500000 1000000` to latitude 0, longitude 3. -/
theorem convertUTM_lowercase_accepted :
    (ConvertUTM ⟨0, 0⟩ 31 'g' 500000 1000000) = (⟨0, 3⟩, true) ∧
      'g' ∉ m_strZoneLetters := by
  constructor
  · have hmem : 'g'.toUpper ∈ m_strZoneLetters := by decide
    have hsouth : (('g'.toUpper.toNat : ℤ) - ('N'.toNat : ℤ) < 0) := by decide
    simp only [ConvertUTM, if_neg (not_not_intro hmem), if_pos hsouth]
    norm_num [Real.sin_zero, Real.tan_zero, Real.cos_zero, Real.sqrt_one, Real.one_rpow]
    rw [mul_div_assoc, div_self (by norm_num [m_Deg2Rad] : m_Deg2Rad ≠ 0), mul_one]
  · decide

/-- C9: whenever `ConvertUTM` returns `false`, the receiver's latitude and
longitude are untouched; the fields are written only on the success path. -/
theorem convertUTM_error_atomic (p : GeoPoint) (iZone : ℤ) (c : Char)
    (e n : ℝ) (h : (ConvertUTM p iZone c e n).2 = false) :
    (ConvertUTM p iZone c e n).1 = p := by
  by_cases hm : c.toUpper ∈ m_strZoneLetters
  · exfalso
    have := (convertUTM_letter_check p iZone c e n).mpr hm
    rw [this] at h
    simp at h
  · simp only [ConvertUTM]
    rw [if_pos hm]

/-- Witness for C9 at a concrete rejected input. -/
theorem convertUTM_error_atomic_witness :
    (ConvertUTM ⟨1, 2⟩ 31 '$' 0 0).2 = false ∧
      (ConvertUTM ⟨1, 2⟩ 31 '$' 0 0).1 = ⟨1, 2⟩ := by
  have h2 : (ConvertUTM ⟨(1:ℝ), 2⟩ 31 '$' 0 0).2 = false := by
    have hm : '$'.toUpper ∉ m_strZoneLetters := by decide
    simp only [ConvertUTM]
    rw [if_pos hm]
  exact ⟨h2, convertUTM_error_atomic ⟨1, 2⟩ 31 '$' 0 0 h2⟩

/-- C5: with coincident reference points `P1 = P2 = (10, 20)` the two-argument
`SphericalDistance` normalizes the zero cross-product vector — a division by
zero whose IEEE result is NaN, embedded as `none` — and `IsBetween` divides by
a zero denominator and just evaluates to `false`; neither reports an error. -/
theorem crossTrack_degenerate_nan :
    crossTrackDistance ⟨1, 2⟩ ⟨10, 20⟩ ⟨10, 20⟩ = none ∧
      ¬ isBetween ⟨1, 2⟩ ⟨10, 20⟩ ⟨10, 20⟩ := by
  constructor
  · have hcross : sphericalCross ⟨10, 20⟩ ⟨10, 20⟩ = ⟨0, 0, 0⟩ := by
      simp [sphericalCross]
    have hnorm : normalizeOpt (⟨0, 0, 0⟩ : CCartesianCoord) = none := by
      simp [normalizeOpt]
    simp only [crossTrackDistance, hcross, hnorm]
  · rintro ⟨hden, -⟩
    apply hden
    ring_nf

/-- C8: for `P = (50, 0)` against the distinct reference points `P1 = (0, 0)`,
`P2 = (0, 1)`, `IsBetween` holds, yet the two-argument `SphericalDistance`
feeds `acos` the dot product of the unit normal with the *unnormalized*
Cartesian point — about `R·sin(50°) ≈ 4.9·10⁶`, far outside `[-1, 1]` — so the
source returns NaN (embedded `none`) instead of a non-negative distance. -/
theorem crossTrack_domain_error :
    isBetween ⟨50, 0⟩ ⟨0, 0⟩ ⟨0, 1⟩ ∧
      crossTrackDistance ⟨50, 0⟩ ⟨0, 0⟩ ⟨0, 1⟩ = none := by
  have hpi : (3 : ℝ) < Real.pi := Real.pi_gt_three
  have hc : 0 < Real.cos (50 * m_Deg2Rad) := by
    apply Real.cos_pos_of_mem_Ioo
    constructor
    · norm_num [m_Deg2Rad]; linarith
    · norm_num [m_Deg2Rad]; linarith
  constructor
  · refine ⟨?_, ?_, ?_⟩
    · show (1 - 0) * (1 - 0) * Real.cos (50 * m_Deg2Rad) * Real.cos (50 * m_Deg2Rad)
        + (0 - 0) * (0 - 0) ≠ 0
      have := mul_pos hc hc
      intro h
      nlinarith
    · show (0 : ℝ) ≤ ((0 - 0) * (1 - 0) * Real.cos (50 * m_Deg2Rad) * Real.cos (50 * m_Deg2Rad)
        + (50 - 0) * (0 - 0)) / _
      norm_num
    · show ((0 - 0) * (1 - 0) * Real.cos (50 * m_Deg2Rad) * Real.cos (50 * m_Deg2Rad)
        + (50 - 0) * (0 - 0)) / ((1 - 0) * (1 - 0) * Real.cos (50 * m_Deg2Rad)
          * Real.cos (50 * m_Deg2Rad) + (0 - 0) * (0 - 0)) < 1
      norm_num
  · have hsin : 0 < Real.sin m_Deg2Rad := by
      apply Real.sin_pos_of_pos_of_lt_pi
      · norm_num [m_Deg2Rad]
      · norm_num [m_Deg2Rad]; linarith
    have hcross : sphericalCross ⟨0, 0⟩ ⟨0, 1⟩ = ⟨0, 0, Real.sin m_Deg2Rad⟩ := by
      simp only [sphericalCross, CCartesianCoord.mk.injEq]
      refine ⟨?_, ?_, ?_⟩
      · norm_num
      · norm_num
      · rw [show (-2 : ℝ) * ((0 * m_Deg2Rad - 1 * m_Deg2Rad) / 2) = m_Deg2Rad by ring]
        norm_num
    have hnorm : normalizeOpt (⟨0, 0, Real.sin m_Deg2Rad⟩ : CCartesianCoord) =
        some ⟨0, 0, 1⟩ := by
      simp only [normalizeOpt]
      have hm : Real.sqrt ((0:ℝ) * 0 + 0 * 0 + Real.sin m_Deg2Rad * Real.sin m_Deg2Rad)
          = Real.sin m_Deg2Rad := by
        rw [show (0:ℝ) * 0 + 0 * 0 + Real.sin m_Deg2Rad * Real.sin m_Deg2Rad
          = Real.sin m_Deg2Rad * Real.sin m_Deg2Rad by ring]
        exact Real.sqrt_mul_self hsin.le
      rw [hm, if_neg hsin.ne']
      simp [div_self hsin.ne']
    have hdot : cdot ⟨0, 0, 1⟩ (toSphericalCartesian ⟨50, 0⟩) =
        m_Radius * Real.sin (50 * m_Deg2Rad) := by
      simp [cdot, toSphericalCartesian]
    have hs7 : (0.7 : ℝ) < Real.sin (50 * m_Deg2Rad) := by
      have h1 : 50 * m_Deg2Rad - (50 * m_Deg2Rad) ^ 3 / 4 < Real.sin (50 * m_Deg2Rad) :=
        Real.sin_gt_sub_cube (by norm_num [m_Deg2Rad]) (by norm_num [m_Deg2Rad])
      norm_num [m_Deg2Rad] at h1 ⊢
      linarith
    have hbig : ¬ (|m_Radius * Real.sin (50 * m_Deg2Rad)| ≤ 1) := by
      have h2 : (1 : ℝ) < m_Radius * Real.sin (50 * m_Deg2Rad) := by
        norm_num [m_Radius]
        nlinarith
      rw [abs_of_pos (by linarith)]
      linarith
    simp only [crossTrackDistance, hcross, hnorm, hdot, acosOpt, if_neg hbig,
      Option.map_none']

theorem atan2_zero_pos {x : ℝ} (hx : 0 < x) : atan2 0 x = 0 := by
  unfold atan2
  rw [if_pos hx, zero_div, Real.arctan_zero]

/-- Evaluation of `VincentyProjection` on the origin point `(0, 200)` with
azimuth 0 and distance 0 (the loop converges on its first iteration): the
output longitude is 200, unchanged. -/
theorem vincentyProjection_at_0_200 :
    vincentyProjection ⟨0, 200⟩ 0 0 1 = some ⟨0, 200⟩ := by
  have hr : (0:ℝ) < 1 - 1 / m_fInv := by norm_num [m_fInv]
  have hd2r : m_Deg2Rad ≠ 0 := by norm_num [m_Deg2Rad]
  simp only [vincentyProjection, vincentyProjLoop]
  norm_num [Real.tan_zero, Real.arctan_zero, Real.sin_zero, Real.cos_zero,
    Real.sqrt_one, EPSILON]
  constructor
  · rw [atan2_zero_pos (by norm_num [m_fInv]), zero_div,
      fmod_eq_self le_rfl (by norm_num)]
  · rw [atan2_zero_pos one_pos, add_zero, mul_comm, mul_div_assoc,
      div_self hd2r, mul_one, fmod_eq_self (by norm_num) (by norm_num)]

/-- C4 counterexample: the input point `(0, 200)` has latitude in `[-90, 90]`,
yet `VincentyProjection` (azimuth 0, distance 0, converging immediately)
returns longitude 200, outside `[-180, 180)`. -/
theorem vincentyProjection_longitude_not_normalized :
    vincentyProjection ⟨0, 200⟩ 0 0 1 = some ⟨0, 200⟩ ∧
      (200 : ℝ) ∉ Set.Ico (-180 : ℝ) 180 :=
  ⟨vincentyProjection_at_0_200, by norm_num⟩

/-- C4 (amended): `SphericalProjection` does normalize its output longitude
into `[-180, 180)`; `VincentyProjection` only reduces modulo 360, so its
output longitude is merely in `(-360, 360)`. -/
theorem projection_longitude_ranges :
    (∀ (p : GeoPoint) (az d : ℝ),
        (sphericalProjection p az d).longitude ∈ Set.Ico (-180 : ℝ) 180) ∧
      ∀ (p : GeoPoint) (az d : ℝ) (fuel : ℕ) (q : GeoPoint),
        vincentyProjection p az d fuel = some q →
          q.longitude ∈ Set.Ioo (-360 : ℝ) 360 := by
  constructor
  · intro p az d
    simp only [sphericalProjection]
    set y := Real.sin (az * m_Deg2Rad) * Real.sin (d / m_Radius)
      * Real.cos (m_Deg2Rad * p.latitude) with hy
    set x := Real.cos (d / m_Radius) - Real.sin (m_Deg2Rad * p.latitude)
      * Real.sin (Real.arcsin (Real.sin (m_Deg2Rad * p.latitude) * Real.cos (d / m_Radius)
        + Real.cos (m_Deg2Rad * p.latitude) * Real.sin (d / m_Radius)
          * Real.cos (az * m_Deg2Rad))) with hx
    obtain ⟨hgt, hle⟩ := atan2_mem_Ioc y x
    have hpile : Real.pi < 180 * m_Deg2Rad := by
      have := Real.pi_lt_d20
      norm_num [m_Deg2Rad] at this ⊢
      linarith
    have hd2r : (0:ℝ) < m_Deg2Rad := by norm_num [m_Deg2Rad]
    have ht : 0 ≤ atan2 y x / m_Deg2Rad + 180 := by
      have h1 : -(180 * m_Deg2Rad) < atan2 y x := by linarith
      have h2 : (-180 : ℝ) < atan2 y x / m_Deg2Rad := by
        rw [neg_lt, ← neg_div, div_lt_iff₀ hd2r]
        linarith
      linarith
    obtain ⟨hm0, hm1⟩ := fmod_mem_Ico ht (by norm_num : (0:ℝ) < 360)
    simp only [Set.mem_Ico]
    constructor <;> linarith
  · intro p az d fuel q h
    simp only [vincentyProjection, Option.map_eq_some'] at h
    obtain ⟨sigma, -, rfl⟩ := h
    simp only [Set.mem_Ioo]
    exact ⟨(fmod_mem_Ioo _ (by norm_num)).1, (fmod_mem_Ioo _ (by norm_num)).2⟩


/-- Witness for the amended C4 statement at concrete inputs, using the
already-evaluated projection `vincentyProjection ⟨0, 200⟩ 0 0 1`. -/
theorem projection_longitude_ranges_witness :
    (sphericalProjection ⟨0, 0⟩ 90 100).longitude ∈ Set.Ico (-180 : ℝ) 180 ∧
      (⟨0, 200⟩ : GeoPoint).longitude ∈ Set.Ioo (-360 : ℝ) 360 :=
  ⟨projection_longitude_ranges.1 ⟨0, 0⟩ 90 100,
   projection_longitude_ranges.2 ⟨0, 200⟩ 0 0 1 ⟨0, 200⟩ vincentyProjection_at_0_200⟩

/-! ### Lemmas for the UTM round-trip evaluation at the southern point (-45, 3) -/

theorem getZone_m45_3 : getZone ⟨-45, 3⟩ = 31 := by
  simp only [getZone]
  rw [if_neg (by norm_num : ¬ ((72:ℝ) < -45 ∧ (-45:ℝ) < 84)),
    if_neg (by norm_num : ¬ ((56:ℝ) < -45 ∧ (-45:ℝ) ≤ 64 ∧ (3:ℝ) < 3 ∧ (3:ℝ) ≤ 12))]
  norm_num
  decide

theorem getZoneLetter_m45_3 : getZoneLetter ⟨-45, 3⟩ = 'G' := by
  simp only [getZoneLetter]
  rw [if_neg (by norm_num : ¬ ((72:ℝ) ≤ -45 ∧ (-45:ℝ) ≤ 84))]
  have h1 : (⌊(-45 : ℝ) + 80⌋ : ℤ) = 35 := by norm_num
  rw [h1]
  rw [show (((35:ℤ) : ℝ)) / 8 = (4.375 : ℝ) by norm_num]
  rw [show rtrunc (4.375 : ℝ) = 4 by norm_num [rtrunc]]
  norm_num
  decide

theorem fmod_183 : fmod ((3:ℝ) + 180) 360 = 183 := by
  rw [show ((3:ℝ) + 180) = 183 by norm_num]
  exact fmod_eq_self (by norm_num) (by norm_num)

theorem sin_two_phi45 :
    -1 ≤ Real.sin (2 * (-45 * m_Deg2Rad)) ∧
      Real.sin (2 * (-45 * m_Deg2Rad)) ≤ -1 + 1e-12 := by
  refine ⟨Real.neg_one_le_sin _, ?_⟩
  have harg : (2 : ℝ) * (-45 * m_Deg2Rad) = -(1.570796326794897) := by
    norm_num [m_Deg2Rad]
  rw [harg, Real.sin_neg]
  have hp1 : (3.14159265358979323846 : ℝ) < Real.pi := Real.pi_gt_d20
  have hp2 : Real.pi < 3.14159265358979323847 := Real.pi_lt_d20
  have hsin : Real.sin (1.570796326794897 : ℝ)
      = Real.cos (Real.pi / 2 - 1.570796326794897) := by
    rw [Real.cos_pi_div_two_sub]
  have hsq : (Real.pi / 2 - 1.570796326794897) ^ 2 ≤ (1e-15 : ℝ) ^ 2 := by
    apply sq_le_sq'
    · linarith
    · linarith
  have hcos := Real.one_sub_sq_div_two_le_cos (x := Real.pi / 2 - 1.570796326794897)
  rw [hsin]
  norm_num at hsq ⊢
  linarith

theorem sin_four_phi45 :
    0 ≤ Real.sin (4 * (-45 * m_Deg2Rad)) ∧
      Real.sin (4 * (-45 * m_Deg2Rad)) ≤ 1e-15 := by
  have harg : (4 : ℝ) * (-45 * m_Deg2Rad) = -(3.141592653589794) := by
    norm_num [m_Deg2Rad]
  have hp1 : (3.14159265358979323846 : ℝ) < Real.pi := Real.pi_gt_d20
  have hp2 : Real.pi < 3.14159265358979323847 := Real.pi_lt_d20
  have hsu : Real.sin (3.141592653589794 : ℝ)
      = -Real.sin ((3.141592653589794 : ℝ) - Real.pi) := by
    have h := Real.sin_add_pi ((3.141592653589794 : ℝ) - Real.pi)
    rw [sub_add_cancel] at h
    exact h
  have heps1 : (0 : ℝ) < 3.141592653589794 - Real.pi := by linarith
  have heps2 : (3.141592653589794 : ℝ) - Real.pi ≤ 1e-15 := by linarith
  rw [harg, Real.sin_neg, hsu, neg_neg]
  constructor
  · apply Real.sin_nonneg_of_nonneg_of_le_pi heps1.le
    linarith [Real.pi_gt_three]
  · exact le_trans (Real.sin_lt heps1).le heps2

theorem convertUTM_31G_eval (p : GeoPoint) (ν : ℝ) :
    ConvertUTM p 31 'G' 500000 ν = (⟨footpointLat ν / m_Deg2Rad, 3⟩, true) := by
  have hmem : 'G'.toUpper ∈ m_strZoneLetters := by decide
  have hsouth : (('G'.toUpper.toNat : ℤ) - ('N'.toNat : ℤ) < 0) := by decide
  simp only [ConvertUTM, footpointLat]
  rw [if_neg (not_not_intro hmem), if_pos hsouth]
  norm_num
  rw [mul_div_assoc, div_self (by norm_num [m_Deg2Rad] : m_Deg2Rad ≠ 0), mul_one]

set_option maxHeartbeats 1000000 in
theorem footpointLat_bounds {ν : ℝ} (h1 : 5017049 ≤ ν) (h2 : ν ≤ 5017051) :
    0.62855 ≤ footpointLat ν ∧ footpointLat ν ≤ 0.63370 := by
  simp only [footpointLat]
  set s := Real.sqrt (1 - (2 * (1 / m_fInv) - 1 / m_fInv * (1 / m_fInv))) with hsdef
  have hs1 : (0.9966 : ℝ) ≤ s := by
    rw [hsdef]
    exact (Real.le_sqrt (by norm_num) (by norm_num [m_fInv])).mpr (by norm_num [m_fInv])
  have hs2 : s ≤ 1 := by
    rw [hsdef]
    calc Real.sqrt (1 - (2 * (1 / m_fInv) - 1 / m_fInv * (1 / m_fInv)))
        ≤ Real.sqrt 1 := Real.sqrt_le_sqrt (by norm_num [m_fInv])
    _ = 1 := Real.sqrt_one
  set e1 := (1 - s) / (1 + s) with he1def
  have he1a : 0 ≤ e1 := by
    rw [he1def]
    exact div_nonneg (by linarith) (by linarith)
  have he1b : e1 ≤ 0.00171 := by
    rw [he1def, div_le_iff₀ (by linarith : (0:ℝ) < 1 + s)]
    linarith
  have hq0 : 0 ≤ e1 * e1 := mul_nonneg he1a he1a
  have hq1 : e1 * e1 ≤ 0.00171 * 0.00171 := by nlinarith [he1a, he1b]
  have hc0 : 0 ≤ e1 * e1 * e1 := mul_nonneg hq0 he1a
  have hc1 : e1 * e1 * e1 ≤ 0.00171 * 0.00171 * 0.00171 := by
    calc e1 * e1 * e1 ≤ 0.00171 * 0.00171 * e1 := mul_le_mul_of_nonneg_right hq1 he1a
    _ ≤ 0.00171 * 0.00171 * 0.00171 := by nlinarith [he1b, he1a]
  have hc2 : e1 * e1 * e1 ≤ 0.00171 * 0.00171 * e1 := mul_le_mul_of_nonneg_right hq1 he1a
  have hqq0 : 0 ≤ e1 * e1 * (e1 * e1) := mul_nonneg hq0 hq0
  have hqq1 : e1 * e1 * (e1 * e1) ≤ 0.00171 * 0.00171 * (e1 * e1) :=
    mul_le_mul_of_nonneg_right hq1 hq0
  have hDpos : (0:ℝ) < 0.9996 * (m_a * (1 - (2 * (1 / m_fInv) - 1 / m_fInv * (1 / m_fInv)) / 4
      - 3 * (2 * (1 / m_fInv) - 1 / m_fInv * (1 / m_fInv))
          * (2 * (1 / m_fInv) - 1 / m_fInv * (1 / m_fInv)) / 64
      - 5 * (2 * (1 / m_fInv) - 1 / m_fInv * (1 / m_fInv))
          * (2 * (1 / m_fInv) - 1 / m_fInv * (1 / m_fInv))
          * (2 * (1 / m_fInv) - 1 / m_fInv * (1 / m_fInv)) / 256)) := by
    norm_num [m_a, m_fInv]
  have hDlb : (6364902:ℝ) ≤ 0.9996 * (m_a * (1 - (2 * (1 / m_fInv) - 1 / m_fInv * (1 / m_fInv)) / 4
      - 3 * (2 * (1 / m_fInv) - 1 / m_fInv * (1 / m_fInv))
          * (2 * (1 / m_fInv) - 1 / m_fInv * (1 / m_fInv)) / 64
      - 5 * (2 * (1 / m_fInv) - 1 / m_fInv * (1 / m_fInv))
          * (2 * (1 / m_fInv) - 1 / m_fInv * (1 / m_fInv))
          * (2 * (1 / m_fInv) - 1 / m_fInv * (1 / m_fInv)) / 256)) := by
    norm_num [m_a, m_fInv]
  have hDub : 0.9996 * (m_a * (1 - (2 * (1 / m_fInv) - 1 / m_fInv * (1 / m_fInv)) / 4
      - 3 * (2 * (1 / m_fInv) - 1 / m_fInv * (1 / m_fInv))
          * (2 * (1 / m_fInv) - 1 / m_fInv * (1 / m_fInv)) / 64
      - 5 * (2 * (1 / m_fInv) - 1 / m_fInv * (1 / m_fInv))
          * (2 * (1 / m_fInv) - 1 / m_fInv * (1 / m_fInv))
          * (2 * (1 / m_fInv) - 1 / m_fInv * (1 / m_fInv)) / 256)) ≤ (6364903:ℝ) := by
    norm_num [m_a, m_fInv]
  have hmub : 0.63112 ≤ (ν - 1e6) / 0.9996
      / (m_a * (1 - (2 * (1 / m_fInv) - 1 / m_fInv * (1 / m_fInv)) / 4
      - 3 * (2 * (1 / m_fInv) - 1 / m_fInv * (1 / m_fInv))
          * (2 * (1 / m_fInv) - 1 / m_fInv * (1 / m_fInv)) / 64
      - 5 * (2 * (1 / m_fInv) - 1 / m_fInv * (1 / m_fInv))
          * (2 * (1 / m_fInv) - 1 / m_fInv * (1 / m_fInv))
          * (2 * (1 / m_fInv) - 1 / m_fInv * (1 / m_fInv)) / 256)) ∧
      (ν - 1e6) / 0.9996
      / (m_a * (1 - (2 * (1 / m_fInv) - 1 / m_fInv * (1 / m_fInv)) / 4
      - 3 * (2 * (1 / m_fInv) - 1 / m_fInv * (1 / m_fInv))
          * (2 * (1 / m_fInv) - 1 / m_fInv * (1 / m_fInv)) / 64
      - 5 * (2 * (1 / m_fInv) - 1 / m_fInv * (1 / m_fInv))
          * (2 * (1 / m_fInv) - 1 / m_fInv * (1 / m_fInv))
          * (2 * (1 / m_fInv) - 1 / m_fInv * (1 / m_fInv)) / 256)) ≤ 0.63113 := by
    rw [div_div]
    constructor
    · rw [le_div_iff₀ hDpos]
      nlinarith [hDub, h1]
    · rw [div_le_iff₀ hDpos]
      nlinarith [hDlb, h2]
  set mu := (ν - 1e6) / 0.9996
    / (m_a * (1 - (2 * (1 / m_fInv) - 1 / m_fInv * (1 / m_fInv)) / 4
      - 3 * (2 * (1 / m_fInv) - 1 / m_fInv * (1 / m_fInv))
          * (2 * (1 / m_fInv) - 1 / m_fInv * (1 / m_fInv)) / 64
      - 5 * (2 * (1 / m_fInv) - 1 / m_fInv * (1 / m_fInv))
          * (2 * (1 / m_fInv) - 1 / m_fInv * (1 / m_fInv))
          * (2 * (1 / m_fInv) - 1 / m_fInv * (1 / m_fInv)) / 256)) with hmudef
  have hsin2a : -1 ≤ Real.sin (2 * mu) := Real.neg_one_le_sin _
  have hsin2b : Real.sin (2 * mu) ≤ 1 := Real.sin_le_one _
  have hsin4a : -1 ≤ Real.sin (4 * mu) := Real.neg_one_le_sin _
  have hsin4b : Real.sin (4 * mu) ≤ 1 := Real.sin_le_one _
  have hsin6a : -1 ≤ Real.sin (6 * mu) := Real.neg_one_le_sin _
  have hsin6b : Real.sin (6 * mu) ≤ 1 := Real.sin_le_one _
  have hj1 : 0 ≤ 3 * e1 / 2 - 27 * e1 * e1 * e1 / 32 ∧
      3 * e1 / 2 - 27 * e1 * e1 * e1 / 32 ≤ 0.002565 := by
    constructor
    · linarith [hc2, he1a]
    · linarith [he1b, hc0]
  have hj2 : 0 ≤ 21 * e1 * e1 / 16 - 55 * e1 * e1 * e1 * e1 / 32 ∧
      21 * e1 * e1 / 16 - 55 * e1 * e1 * e1 * e1 / 32 ≤ 0.00000385 := by
    constructor
    · nlinarith [hqq1, hq0]
    · nlinarith [hq1, hqq0]
  have hj3 : 0 ≤ 151 * e1 * e1 * e1 / 96 ∧ 151 * e1 * e1 * e1 / 96 ≤ 0.000000008 := by
    constructor
    · linarith [hc0]
    · linarith [hc1]
  have ht1a : (3 * e1 / 2 - 27 * e1 * e1 * e1 / 32) * Real.sin (2 * mu)
      ≤ (3 * e1 / 2 - 27 * e1 * e1 * e1 / 32) * 1 :=
    mul_le_mul_of_nonneg_left hsin2b hj1.1
  have ht1b : (3 * e1 / 2 - 27 * e1 * e1 * e1 / 32) * (-1)
      ≤ (3 * e1 / 2 - 27 * e1 * e1 * e1 / 32) * Real.sin (2 * mu) :=
    mul_le_mul_of_nonneg_left hsin2a hj1.1
  have ht2a : (21 * e1 * e1 / 16 - 55 * e1 * e1 * e1 * e1 / 32) * Real.sin (4 * mu)
      ≤ (21 * e1 * e1 / 16 - 55 * e1 * e1 * e1 * e1 / 32) * 1 :=
    mul_le_mul_of_nonneg_left hsin4b hj2.1
  have ht2b : (21 * e1 * e1 / 16 - 55 * e1 * e1 * e1 * e1 / 32) * (-1)
      ≤ (21 * e1 * e1 / 16 - 55 * e1 * e1 * e1 * e1 / 32) * Real.sin (4 * mu) :=
    mul_le_mul_of_nonneg_left hsin4a hj2.1
  have ht3a : (151 * e1 * e1 * e1 / 96) * Real.sin (6 * mu)
      ≤ (151 * e1 * e1 * e1 / 96) * 1 :=
    mul_le_mul_of_nonneg_left hsin6b hj3.1
  have ht3b : (151 * e1 * e1 * e1 / 96) * (-1)
      ≤ (151 * e1 * e1 * e1 / 96) * Real.sin (6 * mu) :=
    mul_le_mul_of_nonneg_left hsin6a hj3.1
  constructor
  · linarith [hmub.1, hj1.2, hj2.2, hj3.2, ht1b, ht2b, ht3b]
  · linarith [hmub.2, hj1.2, hj2.2, hj3.2, ht1a, ht2a, ht3a]

theorem sphericalDistance_far {L : ℝ} (hL1 : 0.62855 ≤ L) (hL2 : L ≤ 0.63370) :
    1 < sphericalDistance ⟨-45, 3⟩ ⟨L / m_Deg2Rad, 3⟩ := by
  simp only [sphericalDistance]
  have hd2r : m_Deg2Rad ≠ 0 := by norm_num [m_Deg2Rad]
  have hL : L / m_Deg2Rad * m_Deg2Rad = L := div_mul_cancel₀ L hd2r
  rw [show ((3:ℝ) - 3) * m_Deg2Rad = 0 by ring, Real.cos_zero, mul_one, hL]
  have harg : Real.sin (-45 * m_Deg2Rad) * Real.sin L
      + Real.cos (-45 * m_Deg2Rad) * Real.cos L
      = Real.cos (L - -45 * m_Deg2Rad) := by
    rw [Real.cos_sub]
    ring
  rw [harg]
  have hth1 : (0:ℝ) ≤ L - -45 * m_Deg2Rad := by
    norm_num [m_Deg2Rad]
    linarith
  have hth2 : L - -45 * m_Deg2Rad ≤ Real.pi := by
    have h3 := Real.pi_gt_three
    norm_num [m_Deg2Rad]
    linarith
  rw [Real.arccos_cos hth1 hth2]
  have hR : ¬ (m_Radius * (L - -45 * m_Deg2Rad) < 0.01) := by
    norm_num [m_Radius, m_Deg2Rad]
    nlinarith [hL1]
  rw [if_neg hR]
  norm_num [m_Radius, m_Deg2Rad]
  nlinarith [hL1]

theorem utmForward_easting_eval : (utmForward ⟨-45, 3⟩).2.2.1 = 500000 := by
  simp only [utmForward]
  rw [getZone_m45_3, fmod_183]
  norm_num

theorem utmForward_northing_bounds :
    5017049 ≤ ((utmForward ⟨-45, 3⟩).2.2.2 : ℝ) ∧
      ((utmForward ⟨-45, 3⟩).2.2.2 : ℝ) ≤ 5017051 := by
  have h2 := sin_two_phi45
  have h4 := sin_four_phi45
  have h6a : -1 ≤ Real.sin (6 * (-45 * m_Deg2Rad)) := Real.neg_one_le_sin _
  have h6b : Real.sin (6 * (-45 * m_Deg2Rad)) ≤ 1 := Real.sin_le_one _
  simp only [utmForward]
  rw [getZone_m45_3, fmod_183]
  rw [if_pos (show (-45:ℝ) < 0 by norm_num)]
  set S2 := Real.sin (2 * (-45 * m_Deg2Rad)) with hS2
  set S4 := Real.sin (4 * (-45 * m_Deg2Rad)) with hS4
  set S6 := Real.sin (6 * (-45 * m_Deg2Rad)) with hS6
  norm_num [m_a, m_fInv, m_Deg2Rad]
  constructor
  · rw [show ((5017049:ℝ)) = ((5017049 : ℤ) : ℝ) by norm_num, Int.cast_le, Int.le_floor]
    push_cast
    nlinarith [h2.1, h2.2, h4.1, h4.2, h6a, h6b]
  · refine le_trans (Int.floor_le _) ?_
    nlinarith [h2.1, h2.2, h4.1, h4.2, h6a, h6b]

/-- C1: the UTM round-trip fails in the southern hemisphere.  For the point
`(-45, 3)` (zone 31, letter G, away from zone boundaries and poles) the
forward conversion adds the 10,000,000 m southern false northing, but
`ConvertUTM` subtracts only 1,000,000 m, so the recovered point (latitude
about +36.3 degrees) is more than one meter — indeed thousands of
kilometers — away from the original. -/
theorem utm_roundtrip_failure_south :
    (ConvertUTM ⟨-45, 3⟩ (utmForward ⟨-45, 3⟩).1 (utmForward ⟨-45, 3⟩).2.1
        ((utmForward ⟨-45, 3⟩).2.2.1 : ℝ) ((utmForward ⟨-45, 3⟩).2.2.2 : ℝ)).2 = true ∧
      1 < sphericalDistance ⟨-45, 3⟩
        (ConvertUTM ⟨-45, 3⟩ (utmForward ⟨-45, 3⟩).1 (utmForward ⟨-45, 3⟩).2.1
          ((utmForward ⟨-45, 3⟩).2.2.1 : ℝ) ((utmForward ⟨-45, 3⟩).2.2.2 : ℝ)).1 := by
  have hz : (utmForward ⟨-45, 3⟩).1 = 31 := getZone_m45_3
  have hl : (utmForward ⟨-45, 3⟩).2.1 = 'G' := getZoneLetter_m45_3
  rw [hz, hl, utmForward_easting_eval]
  rw [show (((500000:ℤ)):ℝ) = (500000:ℝ) by norm_num]
  rw [convertUTM_31G_eval ⟨-45,3⟩ (((utmForward ⟨-45, 3⟩).2.2.2 : ℤ) : ℝ)]
  obtain ⟨hn1, hn2⟩ := utmForward_northing_bounds
  obtain ⟨hb1, hb2⟩ := footpointLat_bounds hn1 hn2
  exact ⟨rfl, sphericalDistance_far hb1 hb2⟩
